import Mathlib

/-!
Verification of the STS token cache and credential facade of
`synapseclient/core/sts_transfer.py`.

Modelling conventions:
* An STS token (a `Credential` in the spec) is the dictionary returned by the
  transport.  Its `expiration` field is stored in the Python code as an ISO
  string and always compared after parsing with `iso_to_datetime(...).timestamp()`;
  we model the field directly as that parsed integer timestamp (seconds), and
  likewise model `datetime.datetime.utcnow()` as an integer `now` supplied to
  each operation.  Durations (`datetime.timedelta`) are integers of seconds.
* `_TokenCache` subclasses `collections.OrderedDict`; we model the ordered
  dictionary as a list of key/value pairs in insertion order, oldest first.
  Per the documented Python semantics of `OrderedDict.__setitem__`, writing to
  a key that is already present replaces its value *in place* (the original
  insertion position is left unchanged); writing a new key appends it at the
  end.  `popitem(last=False)` removes the first (oldest) pair.
* The clock is read once in `get_token` and once more inside `_prune`; the two
  readings are microseconds apart and we model them as the same instant `now`.
* The transport call `syn.restGET(...)` performed by `_fetch_token` is modelled
  as a function `fetch : String → String → Except ε Token` (entity id and
  permission in, token or transport error out).  `get_token` additionally
  returns the number of transport fetches it performed.
-/

/-- An STS token as returned by the transport: the three credential strings and
the expiration, modelled as the parsed UTC timestamp (see module docstring). -/
structure Token where
  accessKeyId : String
  secretAccessKey : String
  sessionToken : String
  expiration : Int
deriving Repr, DecidableEq

/-- `_TokenCache` (sts_transfer.py lines 24–54): a self pruning ordered
dictionary of STS tokens, modelled as the bound `max_size` together with the
entry list in insertion order, oldest first. -/
structure _TokenCache where
  max_size : Nat
  entries : List (String × Token)
deriving Repr, DecidableEq

/-- `_TokenCache.__init__(max_size)`: an empty cache with the given bound. -/
def _TokenCache.init (max_size : Nat) : _TokenCache :=
  ⟨max_size, []⟩

/-- `OrderedDict.__setitem__` (the `super().__setitem__(key, value)` call on
line 35): if the key is present its value is replaced and its position is left
unchanged; otherwise the pair is appended at the (newest) end. -/
def odSet (entries : List (String × Token)) (key : String) (value : Token) :
    List (String × Token) :=
  if entries.any (fun p => p.1 = key) then
    entries.map (fun p => if p.1 = key then (key, value) else p)
  else
    entries ++ [(key, value)]

/-- The capacity loop of `_TokenCache._prune` (lines 39–40):
`while len(self) > self.max_size: self.popitem(last=False)` — repeatedly drop
the oldest entry while the size exceeds the bound. -/
def capPrune (max_size : Nat) : List (String × Token) → List (String × Token)
  | [] => []
  | p :: rest =>
      if rest.length + 1 > max_size then capPrune max_size rest else p :: rest

/-- The expiry loop of `_TokenCache._prune` (lines 42–54): scan from the oldest
entry collecting every entry whose expiration timestamp is strictly before the
current time, stopping at the first entry that is not expired, then delete the
collected keys.  Since keys are unique, deleting the collected keys removes
exactly the scanned leading run of expired entries, i.e. the longest expired
initial segment of the list. -/
def expiryPrune (now : Int) : List (String × Token) → List (String × Token)
  | [] => []
  | (key, token) :: rest =>
      if token.expiration < now then expiryPrune now rest else (key, token) :: rest

/-- `_TokenCache._prune` (lines 38–54): the capacity loop followed by the
expiry scan, at clock reading `now`. -/
def _TokenCache._prune (c : _TokenCache) (now : Int) : _TokenCache :=
  ⟨c.max_size, expiryPrune now (capPrune c.max_size c.entries)⟩

/-- `_TokenCache.__setitem__` (lines 34–36): store the pair via the ordered
dictionary write, then prune. -/
def _TokenCache.setItem (c : _TokenCache) (now : Int) (key : String) (value : Token) :
    _TokenCache :=
  _TokenCache._prune ⟨c.max_size, odSet c.entries key value⟩ now

/-- `dict.get(entity_id)` on a `_TokenCache` (line 83): the stored token for
the key, if present. -/
def _TokenCache.get (c : _TokenCache) (key : String) : Option Token :=
  (c.entries.find? (fun p => p.1 = key)).map (fun p => p.2)

/-- `STS_PERMISSIONS` (line 18): the recognized permission strings. -/
def STS_PERMISSIONS : List String :=
  ["read_only", "read_write"]

/-- `DEFAULT_MIN_LIFE = datetime.timedelta(hours=1)` (line 21), in seconds. -/
def DEFAULT_MIN_LIFE : Int := 3600

/-- `StsTokenStore.DEFAULT_TOKEN_CACHE_SIZE` (line 70). -/
def DEFAULT_TOKEN_CACHE_SIZE : Nat := 5000

/-- `StsTokenStore` (lines 57–92): the `_tokens` dictionary mapping each
permission string to its `_TokenCache` partition, modelled as an association
list.  (The `threading.Lock` taken around the body of `get_token` has no
counterpart in this sequential model.) -/
structure StsTokenStore where
  tokens : List (String × _TokenCache)
deriving Repr, DecidableEq

/-- `StsTokenStore.__init__` (lines 72–74): one empty partition per recognized
permission, each bounded by `max_token_cache_size`. -/
def StsTokenStore.init (max_token_cache_size : Nat) : StsTokenStore :=
  ⟨STS_PERMISSIONS.map (fun p => (p, _TokenCache.init max_token_cache_size))⟩

/-- `self._tokens.get(permission)` (line 79). -/
def StsTokenStore.partition (store : StsTokenStore) (permission : String) :
    Option _TokenCache :=
  (store.tokens.find? (fun p => p.1 = permission)).map (fun p => p.2)

/-- Writing a partition back into the `_tokens` dictionary: the in-place
mutation of the `_TokenCache` value stored under `permission`. -/
def StsTokenStore.setPartition (store : StsTokenStore) (permission : String)
    (cache : _TokenCache) : StsTokenStore :=
  ⟨store.tokens.map (fun p => if p.1 = permission then (permission, cache) else p)⟩

/-- Errors `get_token` can raise: the `ValueError` for an unrecognized
permission (line 81), or a transport error propagating out of
`self._fetch_token` (line 86). -/
inductive GetTokenError (ε : Type) where
  | invalidPermission (permission : String)
  | fetchFailed (e : ε)
deriving Repr, DecidableEq

/-- The statement `token = token_cache[entity_id] = self._fetch_token(syn, entity_id, permission)`
(line 86): evaluate the transport fetch first; on success store the token into
the partition (triggering `__setitem__` pruning) and return it, on failure the
error propagates with no state change.  The final component counts transport
fetches (here: one). -/
def StsTokenStore.fetchAndStore (store : StsTokenStore)
    (fetch : String → String → Except ε Token) (now : Int)
    (entity_id permission : String) (token_cache : _TokenCache) :
    Except (GetTokenError ε) Token × StsTokenStore × Nat :=
  match fetch entity_id permission with
  | .error e => (.error (.fetchFailed e), store, 1)
  | .ok token =>
      (.ok token,
        store.setPartition permission (token_cache.setItem now entity_id token), 1)

/-- `StsTokenStore.get_token` (lines 76–88): look up the partition for the
permission (`ValueError` if unrecognized), then return the cached token unless
it is absent or its remaining life `expiration - now` is strictly below
`min_remaining_life`, in which case fetch a fresh token and store it.  Returns
the result, the store state after the call, and the number of transport
fetches performed. -/
def StsTokenStore.get_token (store : StsTokenStore)
    (fetch : String → String → Except ε Token) (now : Int)
    (entity_id permission : String) (min_remaining_life : Int) :
    Except (GetTokenError ε) Token × StsTokenStore × Nat :=
  match store.partition permission with
  | none => (.error (.invalidPermission permission), store, 0)
  | some token_cache =>
      match token_cache.get entity_id with
      | some token =>
          if token.expiration - now < min_remaining_life then
            store.fetchAndStore fetch now entity_id permission token_cache
          else
            (.ok token, store, 0)
      | none => store.fetchAndStore fetch now entity_id permission token_cache

/-- Modelled from the spec: `snake_case` is imported from
`synapseclient/core/utils.py`, which is not among the provided sources.  The
spec describes it as renaming camel-cased keys "to the target ecosystem's
conventional lower-snake-case names": each upper-case letter becomes an
underscore followed by its lower-case form. -/
def snake_case (s : String) : String :=
  s.data.foldl
    (fun acc c => if c.isUpper then (acc.push '_').push c.toLower else acc.push c) ""

/-- `_get_bash_shell_command` (lines 95–100). -/
def _get_bash_shell_command (credentials : Token) : String :=
  "export AWS_ACCESS_KEY_ID=\"" ++ credentials.accessKeyId ++ "\"\n" ++
  "export AWS_SECRET_ACCESS_KEY=\"" ++ credentials.secretAccessKey ++ "\"\n" ++
  "export AWS_SESSION_TOKEN=\"" ++ credentials.sessionToken ++ "\"\n"

/-- `_get_cmd_shell_command` (lines 103–108). -/
def _get_cmd_shell_command (credentials : Token) : String :=
  "set AWS_ACCESS_KEY_ID \"" ++ credentials.accessKeyId ++ "\"\n" ++
  "set AWS_SECRET_ACCESS_KEY \"" ++ credentials.secretAccessKey ++ "\"\n" ++
  "set AWS_SESSION_TOKEN \"" ++ credentials.sessionToken ++ "\"\n"

/-- `_get_powershell_shell_command` (lines 111–116). -/
def _get_powershell_shell_command (credentials : Token) : String :=
  "$Env:AWS_ACCESS_KEY_ID=\"" ++ credentials.accessKeyId ++ "\"\n" ++
  "$Env:AWS_SECRET_ACCESS_KEY=\"" ++ credentials.secretAccessKey ++ "\"\n" ++
  "$Env:AWS_SESSION_TOKEN=\"" ++ credentials.sessionToken ++ "\"\n"

/-- The value returned by `get_sts_credentials`: the raw token dictionary
(json), the boto-shaped key/value mapping, or a shell command string. -/
inductive OutputValue where
  | json (token : Token)
  | boto (mapping : List (String × String))
  | shell (script : String)
deriving Repr, DecidableEq

/-- Errors `get_sts_credentials` can raise: whatever `get_token` raised, or the
`ValueError` for an unrecognized `output_format` (line 156). -/
inductive StsError (ε : Type) where
  | tokenError (e : GetTokenError ε)
  | unrecognizedOutputFormat (output_format : String)
deriving Repr, DecidableEq

/-- `min_remaining_life = min_remaining_life or DEFAULT_MIN_LIFE` (line 121):
Python `or` replaces a falsy left operand, and a `timedelta` is falsy exactly
when it equals the zero duration, so both an unspecified (`None`) argument and
an explicit zero duration yield `DEFAULT_MIN_LIFE`. -/
def resolveMinLife (min_remaining_life : Option Int) : Int :=
  match min_remaining_life with
  | none => DEFAULT_MIN_LIFE
  | some t => if t = 0 then DEFAULT_MIN_LIFE else t

/-- `get_sts_credentials` (lines 119–158).  `isWindows` models
`platform.system() == 'Windows'` and `bashInShellEnv` models
`'bash' in os.environ.get('SHELL', '')`.  The store state after the call is
returned alongside the result even when an error is raised, since the
underlying cache is mutated in place before the `output_format` dispatch. -/
def get_sts_credentials (store : StsTokenStore)
    (fetch : String → String → Except ε Token) (now : Int)
    (isWindows bashInShellEnv : Bool) (entity_id permission : String)
    (output_format : String) (min_remaining_life : Option Int) :
    Except (StsError ε) OutputValue × StsTokenStore :=
  let minLife := resolveMinLife min_remaining_life
  match store.get_token fetch now entity_id permission minLife with
  | (.error e, store2, _) => (.error (.tokenError e), store2)
  | (.ok value, store2, _) =>
      if output_format = "boto" then
        (.ok (.boto
          [("aws_" ++ snake_case "accessKeyId", value.accessKeyId),
           ("aws_" ++ snake_case "secretAccessKey", value.secretAccessKey),
           ("aws_" ++ snake_case "sessionToken", value.sessionToken)]), store2)
      else if output_format = "shell" then
        if isWindows && !bashInShellEnv then
          (.ok (.shell (_get_cmd_shell_command value)), store2)
        else
          (.ok (.shell (_get_bash_shell_command value)), store2)
      else if output_format = "bash" then
        (.ok (.shell (_get_bash_shell_command value)), store2)
      else if output_format = "cmd" then
        (.ok (.shell (_get_cmd_shell_command value)), store2)
      else if output_format = "powershell" then
        (.ok (.shell (_get_powershell_shell_command value)), store2)
      else if output_format ≠ "json" then
        (.error (.unrecognizedOutputFormat output_format), store2)
      else
        (.ok (.json value), store2)

/-! ### Concrete fixtures used by counterexamples and witnesses -/

/-- A token already expired at time 0. -/
def tokPast : Token := ⟨"AKp", "SKp", "TOKp", -5⟩

/-- A token expiring exactly at time 0. -/
def tokAtNow : Token := ⟨"AKz", "SKz", "TOKz", 0⟩

/-- Fresh tokens expiring far in the future. -/
def tokFut1 : Token := ⟨"AK1", "SK1", "TOK1", 7200⟩

def tokFut2 : Token := ⟨"AK2", "SK2", "TOK2", 7200⟩

def tokFut3 : Token := ⟨"AK3", "SK3", "TOK3", 7200⟩

def tokFut4 : Token := ⟨"AK4", "SK4", "TOK4", 9000⟩

/-- A transport that always succeeds with `tokFut1`. -/
def fetchOk1 : String → String → Except String Token := fun _ _ => .ok tokFut1

/-- A transport that always fails. -/
def fetchFail : String → String → Except String Token := fun _ _ => .error "transport down"

/-! ### Helper lemmas about the pruning loops and the ordered-dictionary write -/

theorem capPrune_length_le (max_size : Nat) (l : List (String × Token)) :
    (capPrune max_size l).length ≤ max_size := by
  induction l with
  | nil => simp [capPrune]
  | cons p rest ih =>
      simp only [capPrune]
      split
      · exact ih
      · simp only [List.length_cons]
        omega

theorem expiryPrune_length_le (now : Int) (l : List (String × Token)) :
    (expiryPrune now l).length ≤ l.length := by
  induction l with
  | nil => simp [expiryPrune]
  | cons q rest ih =>
      obtain ⟨k, t⟩ := q
      simp only [expiryPrune]
      split
      · exact le_trans ih (by simp)
      · simp

theorem expiryPrune_head_not_expired (now : Int) (l : List (String × Token))
    (p : String × Token) (h : (expiryPrune now l).head? = some p) :
    now ≤ p.2.expiration := by
  induction l with
  | nil => simp [expiryPrune] at h
  | cons q rest ih =>
      obtain ⟨k, t⟩ := q
      simp only [expiryPrune] at h
      split at h
      · exact ih h
      · rename_i hexp
        simp only [List.head?_cons, Option.some.injEq] at h
        subst h
        show now ≤ t.expiration
        omega

theorem odSet_map_fst_of_mem (l : List (String × Token)) (key : String) (v : Token)
    (h : key ∈ l.map Prod.fst) :
    (odSet l key v).map Prod.fst = l.map Prod.fst := by
  have hany : l.any (fun p => p.1 = key) = true := by
    rw [List.any_eq_true]
    obtain ⟨p, hp, hk⟩ := List.mem_map.mp h
    exact ⟨p, hp, by simp [hk]⟩
  unfold odSet
  rw [if_pos hany, List.map_map]
  apply List.map_congr_left
  intro p _
  by_cases hpk : p.1 = key
  · simp [hpk]
  · simp [hpk]

theorem odSet_find_of_mem (l : List (String × Token)) (key : String) (v : Token)
    (h : key ∈ l.map Prod.fst) :
    ((odSet l key v).find? (fun p => p.1 = key)).map (fun p => p.2) = some v := by
  have hany : l.any (fun p => p.1 = key) = true := by
    rw [List.any_eq_true]
    obtain ⟨p, hp, hk⟩ := List.mem_map.mp h
    exact ⟨p, hp, by simp [hk]⟩
  unfold odSet
  rw [if_pos hany]
  clear hany
  induction l with
  | nil => simp at h
  | cons q rest ih =>
      by_cases hqk : q.1 = key
      · simp [List.find?_cons, hqk]
      · have hmem : key ∈ rest.map Prod.fst := by
          simp only [List.map_cons, List.mem_cons] at h
          exact h.resolve_left (by intro hh; exact hqk hh.symm)
        simp only [List.map_cons, if_neg hqk]
        rw [List.find?_cons_of_neg _ (by simp [hqk])]
        exact ih hmem

/-! ### Claims -/

/-- C1 (counterexample): the claim that after insertion-triggered pruning no
entry with expiration at or before the current time remains, regardless of its
position, is false.  At time 0: (a) inserting the expired token `tokPast` into
a partition whose oldest entry `B` is not expired leaves the expired entry in
place, because the expiry scan stops at the first non-expired entry; (b) an
entry expiring exactly at the current time is retained even at the oldest
position, because the code compares with strict `<`. -/
theorem C1_counterexample :
    (tokPast.expiration ≤ 0 ∧
      ((_TokenCache.mk 10 [("B", tokFut1)]).setItem 0 "A" tokPast).entries =
        [("B", tokFut1), ("A", tokPast)]) ∧
    (tokAtNow.expiration ≤ 0 ∧
      ((_TokenCache.init 10).setItem 0 "A" tokAtNow).entries = [("A", tokAtNow)]) := by
  exact ⟨⟨by decide, by rfl⟩, ⟨by decide, by rfl⟩⟩

/-- C1 (amended): at the moment insertion-triggered pruning completes, the
*oldest* entry of the partition (if any) is never strictly expired — its
expiration timestamp is at or after the current time.  Strictly-expired
entries positioned behind a non-expired entry may remain, and an entry
expiring exactly at the current time is retained. -/
theorem C1_amended_oldest_entry_not_expired (c : _TokenCache) (now : Int)
    (key : String) (value : Token) (p : String × Token)
    (h : ((c.setItem now key value).entries).head? = some p) :
    now ≤ p.2.expiration :=
  expiryPrune_head_not_expired now (capPrune c.max_size (odSet c.entries key value)) p h

theorem C1_amended_witness :
    ((((_TokenCache.init 10).setItem 0 "A" tokAtNow).entries).head? =
        some ("A", tokAtNow)) ∧
      (0 : Int) ≤ ("A", tokAtNow).2.expiration :=
  ⟨by rfl,
    C1_amended_oldest_entry_not_expired (_TokenCache.init 10) 0 "A" tokAtNow
      ("A", tokAtNow) (by rfl)⟩

/-- C2 (counterexample): with bound 2, insert A, then B, then re-insert A, then
insert C.  The claim predicts the re-insert makes A newest, so B is evicted by
the capacity prune and A survives; the ordered-dictionary write actually keeps
A at its original (oldest) position, so A is the entry evicted. -/
theorem C2_counterexample :
    (((((_TokenCache.init 2).setItem 0 "A" tokFut1).setItem 0 "B" tokFut2).setItem 0
        "A" tokFut3).setItem 0 "C" tokFut4).entries =
      [("B", tokFut2), ("C", tokFut4)] ∧
    (((((_TokenCache.init 2).setItem 0 "A" tokFut1).setItem 0 "B" tokFut2).setItem 0
        "A" tokFut3).setItem 0 "C" tokFut4).get "A" = none := by
  exact ⟨by rfl, by rfl⟩

/-- C2 (amended): re-inserting an entity that is already present replaces its
stored credential but leaves its position in the insertion/eviction order
unchanged — eviction order is the order of *first* insertion, and a re-insert
does not count as a new insertion for ordering purposes. -/
theorem C2_amended_reinsert_keeps_position (l : List (String × Token))
    (key : String) (v : Token) (h : key ∈ l.map Prod.fst) :
    (odSet l key v).map Prod.fst = l.map Prod.fst ∧
    ((odSet l key v).find? (fun p => p.1 = key)).map (fun p => p.2) = some v :=
  ⟨odSet_map_fst_of_mem l key v h, odSet_find_of_mem l key v h⟩

theorem C2_amended_witness :
    (odSet [("A", tokFut1), ("B", tokFut2)] "A" tokFut3).map Prod.fst =
        [("A", tokFut1), ("B", tokFut2)].map Prod.fst ∧
      ((odSet [("A", tokFut1), ("B", tokFut2)] "A" tokFut3).find?
          (fun p => p.1 = "A")).map (fun p => p.2) = some tokFut3 :=
  C2_amended_reinsert_keeps_position [("A", tokFut1), ("B", tokFut2)] "A" tokFut3
    (by simp)

/-- C3: after every insertion's pruning completes the partition holds at most
`max_size` entries; with `max_size = 0` no entry is ever retained; and with
bound 2, inserting non-expired A, B, C in that order leaves exactly B and C,
with A evicted. -/
theorem C3_partition_size_bound :
    (∀ (c : _TokenCache) (now : Int) (key : String) (value : Token),
        ((c.setItem now key value).entries).length ≤ c.max_size) ∧
    (∀ (c : _TokenCache) (now : Int) (key : String) (value : Token),
        c.max_size = 0 → (c.setItem now key value).entries = []) ∧
    ((((_TokenCache.init 2).setItem 0 "A" tokFut1).setItem 0 "B" tokFut2).setItem 0
        "C" tokFut3).entries = [("B", tokFut2), ("C", tokFut3)] := by
  have hlen : ∀ (c : _TokenCache) (now : Int) (key : String) (value : Token),
      ((c.setItem now key value).entries).length ≤ c.max_size := fun c now key value =>
    le_trans (expiryPrune_length_le now _) (capPrune_length_le c.max_size _)
  refine ⟨hlen, ?_, by rfl⟩
  intro c now key value h0
  have hc := hlen c now key value
  rw [h0] at hc
  exact List.length_eq_zero.mp (Nat.le_zero.mp hc)

theorem C3_witness :
    ((_TokenCache.init 0).setItem 0 "A" tokFut1).entries = [] :=
  C3_partition_size_bound.2.1 (_TokenCache.init 0) 0 "A" tokFut1 rfl

/-- C4: for a permission that has a partition (every recognized permission
does), `get_token` fetches exactly once, stores the fetched credential through
the partition write (replacing any prior entry), and returns it whenever the
entry is absent or its remaining life is strictly below `min_remaining_life`;
otherwise it returns the cached credential unchanged with no fetch and no
state change. -/
theorem C4_get_token_policy {ε : Type} (store : StsTokenStore)
    (fetch : String → String → Except ε Token) (now : Int)
    (entity_id permission : String) (min_remaining_life : Int)
    (cache : _TokenCache) (hp : store.partition permission = some cache) :
    ((cache.get entity_id = none ∨
        (∃ t, cache.get entity_id = some t ∧
          t.expiration - now < min_remaining_life)) →
      ∀ tok, fetch entity_id permission = .ok tok →
        store.get_token fetch now entity_id permission min_remaining_life =
          (.ok tok,
            store.setPartition permission (cache.setItem now entity_id tok), 1)) ∧
    (∀ t, cache.get entity_id = some t →
      ¬(t.expiration - now < min_remaining_life) →
      store.get_token fetch now entity_id permission min_remaining_life =
        (.ok t, store, 0)) := by
  constructor
  · intro hmiss tok hfetch
    rcases hmiss with hnone | ⟨t, ht, hlife⟩
    · simp [StsTokenStore.get_token, hp, hnone, StsTokenStore.fetchAndStore, hfetch]
    · simp [StsTokenStore.get_token, hp, ht, hlife, StsTokenStore.fetchAndStore, hfetch]
  · intro t ht hfresh
    simp [StsTokenStore.get_token, hp, ht, hfresh]

theorem C4_witness :
    (StsTokenStore.init 5).get_token fetchOk1 0 "syn1" "read_only" 3600 =
      (.ok tokFut1,
        (StsTokenStore.init 5).setPartition "read_only"
          ((_TokenCache.init 5).setItem 0 "syn1" tokFut1), 1) :=
  (C4_get_token_policy (StsTokenStore.init 5) fetchOk1 0 "syn1" "read_only" 3600
      (_TokenCache.init 5) (by rfl)).1 (Or.inl (by rfl)) tokFut1 (by rfl)

/-- C5: when the transport fetch performed inside `get_token` fails, the error
propagates to the caller and the returned store is exactly the one before the
call — no entry is inserted, removed, or reordered in any partition. -/
theorem C5_fetch_failure_preserves_state {ε : Type} (store : StsTokenStore)
    (fetch : String → String → Except ε Token) (now : Int)
    (entity_id permission : String) (min_remaining_life : Int)
    (cache : _TokenCache) (e : ε)
    (hp : store.partition permission = some cache)
    (hmiss : cache.get entity_id = none ∨
      (∃ t, cache.get entity_id = some t ∧
        t.expiration - now < min_remaining_life))
    (hfail : fetch entity_id permission = .error e) :
    store.get_token fetch now entity_id permission min_remaining_life =
      (.error (.fetchFailed e), store, 1) := by
  rcases hmiss with hnone | ⟨t, ht, hlife⟩
  · simp [StsTokenStore.get_token, hp, hnone, StsTokenStore.fetchAndStore, hfail]
  · simp [StsTokenStore.get_token, hp, ht, hlife, StsTokenStore.fetchAndStore, hfail]

theorem C5_witness :
    (StsTokenStore.init 5).get_token fetchFail 0 "syn1" "read_only" 3600 =
      (.error (.fetchFailed "transport down"), StsTokenStore.init 5, 1) :=
  C5_fetch_failure_preserves_state (StsTokenStore.init 5) fetchFail 0 "syn1"
    "read_only" 3600 (_TokenCache.init 5) "transport down" (by rfl)
    (Or.inl (by rfl)) (by rfl)

/-- C7: with `output_format = "boto"`, `get_sts_credentials` returns a mapping
with exactly the three keys `aws_access_key_id`, `aws_secret_access_key` and
`aws_session_token`, bound to the credential's `accessKeyId`,
`secretAccessKey` and `sessionToken`; the expiration and any other field are
absent. -/
theorem C7_boto_mapping {ε : Type} (store : StsTokenStore)
    (fetch : String → String → Except ε Token) (now : Int)
    (isWindows bashInShellEnv : Bool) (entity_id permission : String)
    (min_remaining_life : Option Int) (tok : Token) (store2 : StsTokenStore) (n : Nat)
    (htok : store.get_token fetch now entity_id permission
        (resolveMinLife min_remaining_life) = (.ok tok, store2, n)) :
    get_sts_credentials store fetch now isWindows bashInShellEnv entity_id permission
        "boto" min_remaining_life =
      (.ok (.boto
        [("aws_access_key_id", tok.accessKeyId),
         ("aws_secret_access_key", tok.secretAccessKey),
         ("aws_session_token", tok.sessionToken)]), store2) := by
  simp only [get_sts_credentials, htok]
  rfl

theorem C7_witness :
    get_sts_credentials (StsTokenStore.init 5) fetchOk1 0 false true "syn1"
        "read_only" "boto" none =
      (.ok (.boto
        [("aws_access_key_id", tokFut1.accessKeyId),
         ("aws_secret_access_key", tokFut1.secretAccessKey),
         ("aws_session_token", tokFut1.sessionToken)]),
        (StsTokenStore.init 5).setPartition "read_only"
          ((_TokenCache.init 5).setItem 0 "syn1" tokFut1)) :=
  C7_boto_mapping (StsTokenStore.init 5) fetchOk1 0 false true "syn1" "read_only"
    none tokFut1
    ((StsTokenStore.init 5).setPartition "read_only"
      ((_TokenCache.init 5).setItem 0 "syn1" tokFut1)) 1 (by rfl)

/-- C8: once the token is acquired, `get_sts_credentials` fails with the
unrecognized-output-format error for every `output_format` outside the six
recognized values `json`, `boto`, `shell`, `bash`, `cmd`, `powershell`, and
never raises that error for any of the six. -/
theorem C8_output_format_validation {ε : Type} (store : StsTokenStore)
    (fetch : String → String → Except ε Token) (now : Int)
    (isWindows bashInShellEnv : Bool) (entity_id permission : String)
    (min_remaining_life : Option Int) (output_format : String)
    (tok : Token) (store2 : StsTokenStore) (n : Nat)
    (htok : store.get_token fetch now entity_id permission
        (resolveMinLife min_remaining_life) = (.ok tok, store2, n)) :
    (output_format ∉ ["json", "boto", "shell", "bash", "cmd", "powershell"] →
      get_sts_credentials store fetch now isWindows bashInShellEnv entity_id
          permission output_format min_remaining_life =
        (.error (.unrecognizedOutputFormat output_format), store2)) ∧
    (output_format ∈ ["json", "boto", "shell", "bash", "cmd", "powershell"] →
      ∀ s, (get_sts_credentials store fetch now isWindows bashInShellEnv entity_id
          permission output_format min_remaining_life).1 ≠
        .error (.unrecognizedOutputFormat s)) := by
  constructor
  · intro hnot
    simp only [List.mem_cons, List.mem_singleton, not_or] at hnot
    obtain ⟨h1, h2, h3, h4, h5, h6⟩ := hnot
    simp [get_sts_credentials, htok, h1, h2, h3, h4, h5, h6]
  · intro hmem s
    simp only [List.mem_cons, List.not_mem_nil, or_false] at hmem
    rcases hmem with rfl | rfl | rfl | rfl | rfl | rfl
    · simp [get_sts_credentials, htok]
    · simp [get_sts_credentials, htok]
    · by_cases hw : (isWindows && !bashInShellEnv) = true <;>
        simp [get_sts_credentials, htok, hw]
    · simp [get_sts_credentials, htok]
    · simp [get_sts_credentials, htok]
    · simp [get_sts_credentials, htok]

theorem C8_witness :
    get_sts_credentials (StsTokenStore.init 5) fetchOk1 0 false true "syn1"
        "read_only" "bogus" none =
      (.error (.unrecognizedOutputFormat "bogus"),
        (StsTokenStore.init 5).setPartition "read_only"
          ((_TokenCache.init 5).setItem 0 "syn1" tokFut1)) :=
  (C8_output_format_validation (StsTokenStore.init 5) fetchOk1 0 false true "syn1"
      "read_only" none "bogus" tokFut1
      ((StsTokenStore.init 5).setPartition "read_only"
        ((_TokenCache.init 5).setItem 0 "syn1" tokFut1)) 1 (by rfl)).1 (by decide)

/-- C9: passing an explicit zero `min_remaining_life` behaves exactly as
leaving it unspecified — Python `or` replaces the falsy zero duration with the
1-hour default before the cache is consulted. -/
theorem C9_zero_min_life_is_default {ε : Type} (store : StsTokenStore)
    (fetch : String → String → Except ε Token) (now : Int)
    (isWindows bashInShellEnv : Bool) (entity_id permission output_format : String) :
    get_sts_credentials store fetch now isWindows bashInShellEnv entity_id permission
        output_format (some 0) =
      get_sts_credentials store fetch now isWindows bashInShellEnv entity_id
        permission output_format none := rfl

/-- C10: `get_sts_credentials` validates `output_format` only after delegating
to the token cache: for every unrecognized format the store state of the
failing call is the state after `get_token` ran (cache lookup and, on a miss,
fetch and insertion); concretely, a cold-cache call with format `bogus` fails
with the unrecognized-format error yet leaves the store different from what it
was before the call. -/
theorem C10_validation_after_cache_use :
    (∀ {ε : Type} (store : StsTokenStore) (fetch : String → String → Except ε Token)
        (now : Int) (isWindows bashInShellEnv : Bool)
        (entity_id permission output_format : String) (min_remaining_life : Option Int),
        output_format ∉ ["json", "boto", "shell", "bash", "cmd", "powershell"] →
        (get_sts_credentials store fetch now isWindows bashInShellEnv entity_id
            permission output_format min_remaining_life).2 =
          (store.get_token fetch now entity_id permission
            (resolveMinLife min_remaining_life)).2.1) ∧
    ((get_sts_credentials (StsTokenStore.init 5) fetchOk1 0 false true "syn1"
        "read_only" "bogus" none).1 = .error (.unrecognizedOutputFormat "bogus") ∧
      (get_sts_credentials (StsTokenStore.init 5) fetchOk1 0 false true "syn1"
        "read_only" "bogus" none).2 ≠ StsTokenStore.init 5) := by
  constructor
  · intro ε store fetch now isWindows bashInShellEnv entity_id permission
      output_format min_remaining_life hnot
    simp only [List.mem_cons, List.mem_singleton, not_or] at hnot
    obtain ⟨h1, h2, h3, h4, h5, h6⟩ := hnot
    rcases h : store.get_token fetch now entity_id permission
        (resolveMinLife min_remaining_life) with ⟨r, store2, n⟩
    rcases r with e | v
    · simp [get_sts_credentials, h]
    · simp [get_sts_credentials, h, h1, h2, h3, h4, h5, h6]
  · exact ⟨by rfl, by decide⟩

theorem C10_witness :
    (get_sts_credentials (StsTokenStore.init 5) fetchFail 0 false true "syn1"
        "read_only" "bogus" none).2 =
      ((StsTokenStore.init 5).get_token fetchFail 0 "syn1" "read_only"
        (resolveMinLife none)).2.1 :=
  C10_validation_after_cache_use.1 (StsTokenStore.init 5) fetchFail 0 false true
    "syn1" "read_only" "bogus" none (by decide)
